import Mathlib

/-!
Verification of the linklocal backend core: token service
(src/src/utils/auth.ts), authorization gate (src/src/middleware/auth.ts),
request lifecycle engine (src/src/routes/services.ts, requests router),
and feedback/rating aggregator (feedback router).

The embedding is shallow: each Express handler becomes a pure function
from a database snapshot (lists of rows) and the parsed inputs to an HTTP
status code and the resulting database snapshot.  JavaScript numbers are
modelled as rationals; jwt signing is modelled symbolically (a signed token
records its payload, the secret it was signed with and its expiry instant,
and verification compares secrets and checks expiry).
-/

namespace LinkLocal

/-! ## Token service (src/src/utils/auth.ts) -/

/-- The claims embedded in every token: userId, email, role. -/
structure JWTPayload where
  userId : String
  email : String
  role : String
deriving DecidableEq

/-- A token string, modelled symbolically: either something jwt.verify cannot
parse at all, or a token signed with a given secret, carrying its payload and
the absolute instant at which it expires. -/
inductive Token where
  | malformed : Token
  | signed (payload : JWTPayload) (secret : String) (exp : Nat) : Token
deriving DecidableEq

/-- jwt.verify: succeeds (returns the payload) only when the verifying secret
matches the signing secret and the token has not expired; any failure
(malformed token, wrong signature, expired) is an exception, modelled none. -/
def jwtVerify (t : Token) (secret : String) (now : Nat) : Option JWTPayload :=
  match t with
  | .malformed => none
  | .signed payload s exp => if s == secret && now < exp then some payload else none

/-- Line 5 of utils/auth.ts: process.env.JWT_SECRET_KEY with a default. -/
def JWT_SECRET (envJWT_SECRET_KEY : Option String) : String :=
  envJWT_SECRET_KEY.getD "your-secret-key"

/-- Line 6 of utils/auth.ts: reads the SAME environment variable
JWT_SECRET_KEY (not a refresh-specific one), with a different default. -/
def JWT_REFRESH_SECRET (envJWT_SECRET_KEY : Option String) : String :=
  envJWT_SECRET_KEY.getD "your-refresh-secret-key"

/-- The identity data a token is issued for. -/
structure UserTokenData where
  id : String
  email : String
  role : String
deriving DecidableEq

/-- AuthUtils.generateAccessToken: sign {userId, email, role} with JWT_SECRET,
expiring 15 minutes after issuance. -/
def generateAccessToken (env : Option String) (u : UserTokenData) (now : Nat) : Token :=
  .signed { userId := u.id, email := u.email, role := u.role } (JWT_SECRET env) (now + 15 * 60)

/-- AuthUtils.generateRefreshToken: sign {userId, email, role} with
JWT_REFRESH_SECRET, expiring 7 days after issuance. -/
def generateRefreshToken (env : Option String) (u : UserTokenData) (now : Nat) : Token :=
  .signed { userId := u.id, email := u.email, role := u.role } (JWT_REFRESH_SECRET env)
    (now + 7 * 24 * 60 * 60)

/-- The pair returned by AuthUtils.generateTokenPair. -/
structure TokenPair where
  accessToken : Token
  refreshToken : Token
  expiresIn : Nat
deriving DecidableEq

/-- AuthUtils.generateTokenPair. -/
def generateTokenPair (env : Option String) (u : UserTokenData) (now : Nat) : TokenPair :=
  { accessToken := generateAccessToken env u now
    refreshToken := generateRefreshToken env u now
    expiresIn := 15 * 60 }

/-- AuthUtils.verifyAccessToken: jwt.verify against JWT_SECRET, null on any
failure. -/
def verifyAccessToken (env : Option String) (t : Token) (now : Nat) : Option JWTPayload :=
  jwtVerify t (JWT_SECRET env) now

/-- AuthUtils.verifyRefreshToken: jwt.verify against JWT_REFRESH_SECRET, null
on any failure. -/
def verifyRefreshToken (env : Option String) (t : Token) (now : Nat) : Option JWTPayload :=
  jwtVerify t (JWT_REFRESH_SECRET env) now

/-! ## Data model (rows of the relational store) -/

/-- Status enum of a ServiceRequest. -/
inductive RequestStatus where
  | pending | accepted | declined | completed | cancelled
deriving DecidableEq

/-- User row (fields the core reads or writes). -/
structure User where
  id : String
  email : String
  role : String
  is_active : Bool
  rating : ℚ
deriving DecidableEq

/-- Service row (fields the core reads). -/
structure Service where
  id : String
  provider_id : String
  is_active : Bool
deriving DecidableEq

/-- ServiceRequest row. -/
structure ServiceRequest where
  id : String
  service_id : String
  customer_id : String
  provider_id : String
  status : RequestStatus
  message : Option String
  requested_date : Option String
  estimated_duration : Option ℚ
deriving DecidableEq

/-- Feedback row. -/
structure Feedback where
  service_request_id : String
  customer_id : String
  provider_id : String
  rating : ℚ
  comment : Option String
  is_public : Bool
  created_at : Nat
deriving DecidableEq

/-- A snapshot of the database. -/
structure DB where
  users : List User
  services : List Service
  requests : List ServiceRequest
  feedbacks : List Feedback
deriving DecidableEq

/-- Math.round of JavaScript on a real argument: floor(x + 1/2)
(halves round towards positive infinity). -/
def jsRound (q : ℚ) : ℤ := ⌊q + 1 / 2⌋

/-- Math.round(x * 10) / 10 : round to one decimal place. -/
def roundTo1 (q : ℚ) : ℚ := (jsRound (q * 10) : ℚ) / 10

/-! ## Authorization gate (src/src/middleware/auth.ts, authenticateToken) -/

/-- authenticateToken: returns the payload placed on req.user when the call
may proceed, and none when the middleware answers 401.  The three failure
sites of the source are: no token extracted from the Authorization header
(the token argument is none), AuthUtils.verifyAccessToken returning null,
and the re-fetched account being absent or having is_active false. -/
def authenticateToken (env : Option String) (db : DB) (token : Option Token)
    (now : Nat) : Option JWTPayload :=
  match token with
  | none => none
  | some t =>
    match verifyAccessToken env t now with
    | none => none
    | some payload =>
      match db.users.find? (fun u => u.id == payload.userId) with
      | none => none
      | some user => if user.is_active then some payload else none

/-- A route guarded by authenticateToken: the handler runs only when the
middleware calls next(); otherwise the response is 401 and the store is
untouched. -/
def protectedRoute (env : Option String) (db : DB) (token : Option Token) (now : Nat)
    (handler : JWTPayload → Nat × DB) : Nat × DB :=
  match authenticateToken env db token now with
  | none => (401, db)
  | some payload => handler payload

/-! ## Request lifecycle engine (src/src/routes/services.ts, requests router) -/

/-- createRequestSchema (zod): service_id nonempty, estimated_duration
positive when present. -/
def createRequestValid (service_id : String) (estimated_duration : Option ℚ) : Bool :=
  decide (1 ≤ service_id.length) &&
    (match estimated_duration with
     | none => true
     | some d => decide (0 < d))

/-- POST /requests handler (customer role already enforced by requireRole):
404 when the referenced service is missing or inactive, 409 when the same
customer already has a pending or accepted request for the service, else a
new pending request whose provider_id is the service owner. -/
def createRequest (db : DB) (customerId : String) (service_id : String)
    (message : Option String) (requested_date : Option String)
    (estimated_duration : Option ℚ) (newId : String) : Nat × DB :=
  if !createRequestValid service_id estimated_duration then (400, db)
  else
    match db.services.find? (fun s => s.id == service_id && s.is_active) with
    | none => (404, db)
    | some service =>
      match db.requests.find? (fun r =>
          r.service_id == service_id && r.customer_id == customerId &&
            (r.status == .pending || r.status == .accepted)) with
      | some _ => (409, db)
      | none =>
        (201, { db with requests := db.requests ++
          [{ id := newId, service_id := service_id, customer_id := customerId
             provider_id := service.provider_id, status := .pending
             message := message, requested_date := requested_date
             estimated_duration := estimated_duration }] })

/-- The permission check of the PATCH /requests/:id handler (canUpdate). -/
def canUpdateRequest (userId : String) (userRole : String) (request : ServiceRequest)
    (status : RequestStatus) : Bool :=
  if userRole == "provider" && request.provider_id == userId then
    status == .accepted || status == .declined || status == .completed
  else if userRole == "customer" && request.customer_id == userId then
    status == .cancelled && request.status == .pending
  else
    false

/-- PATCH /requests/:id handler: 404 when the request is missing, 403 when
canUpdate is false, else the status is persisted. -/
def patchRequestStatus (db : DB) (userId : String) (userRole : String) (id : String)
    (status : RequestStatus) : Nat × DB :=
  match db.requests.find? (fun r => r.id == id) with
  | none => (404, db)
  | some request =>
    if canUpdateRequest userId userRole request status then
      (200, { db with requests := db.requests.map (fun r =>
        if r.id == id then { r with status := status } else r) })
    else (403, db)

/-! ## Feedback / rating aggregator (feedback router) -/

/-- submitFeedbackSchema (zod): service_request_id nonempty and
rating a number in the closed interval from 1 to 5 (z.number().min(1).max(5);
note the schema does NOT require the rating to be an integer). -/
def submitFeedbackValid (service_request_id : String) (rating : ℚ) : Bool :=
  decide (1 ≤ service_request_id.length) && decide ((1 : ℚ) ≤ rating) && decide (rating ≤ 5)

/-- POST /feedback handler (customer role already enforced by requireRole):
after validation, 404 when no completed request with the given id belongs to
the caller, 409 when feedback for the request already exists, else the
feedback row is created and the provider's User.rating is recomputed as the
rounded mean of all of the provider's feedback ratings.  The is_public value
of the created row is the column default (the Prisma schema is outside this
repository slice); no claim below depends on it. -/
def submitFeedback (db : DB) (customerId : String) (service_request_id : String)
    (rating : ℚ) (comment : Option String) (now : Nat) : Nat × DB :=
  if !submitFeedbackValid service_request_id rating then (400, db)
  else
    match db.requests.find? (fun r =>
        r.id == service_request_id && r.customer_id == customerId &&
          r.status == .completed) with
    | none => (404, db)
    | some serviceRequest =>
      match db.feedbacks.find? (fun f => f.service_request_id == service_request_id) with
      | some _ => (409, db)
      | none =>
        let fb : Feedback :=
          { service_request_id := service_request_id, customer_id := customerId
            provider_id := serviceRequest.provider_id, rating := rating
            comment := comment, is_public := true, created_at := now }
        let db1 : DB := { db with feedbacks := db.feedbacks ++ [fb] }
        let providerFeedback :=
          db1.feedbacks.filter (fun f => f.provider_id == serviceRequest.provider_id)
        let averageRating :=
          ((providerFeedback.map Feedback.rating).sum) / (providerFeedback.length : ℚ)
        let db2 : DB := { db1 with users := db1.users.map (fun u =>
          if u.id == serviceRequest.provider_id then
            { u with rating := roundTo1 averageRating } else u) }
        (201, db2)

/-- The body of a successful GET /feedback/provider/:id response. -/
structure ProviderFeedbackBody where
  feedback : List Feedback
  average_rating : ℚ
  total_reviews : Nat
deriving DecidableEq

/-- Prisma orderBy created_at desc, modelled as a stable sort placing larger
timestamps first. -/
def sortNewestFirst (l : List Feedback) : List Feedback :=
  List.insertionSort (fun a b => b.created_at ≤ a.created_at) l

/-- GET /feedback/provider/:id handler: 404 when no user with the id has role
provider, else the provider's public feedback newest first together with the
average over that returned set (0 when empty) rounded to one decimal and the
count of that set. -/
def getProviderFeedback (db : DB) (id : String) : Nat × Option ProviderFeedbackBody :=
  match db.users.find? (fun u => u.id == id && u.role == "provider") with
  | none => (404, none)
  | some _ =>
    let feedback := sortNewestFirst (db.feedbacks.filter (fun f =>
      f.provider_id == id && f.is_public))
    let totalReviews := feedback.length
    let averageRating : ℚ :=
      if 0 < totalReviews then ((feedback.map Feedback.rating).sum) / (totalReviews : ℚ)
      else 0
    (200, some { feedback := feedback, average_rating := roundTo1 averageRating
                 total_reviews := totalReviews })

/-- At most one Feedback row per ServiceRequest: pairwise distinct
service_request_id values (the unique constraint of the Feedback table). -/
def FeedbackUnique (l : List Feedback) : Prop :=
  l.Pairwise (fun a b => a.service_request_id ≠ b.service_request_id)

/-! ## Concrete rows and snapshots used to instantiate the theorems -/

/-- A customer account. -/
def userC : User := { id := "c1", email := "c@x.io", role := "customer", is_active := true, rating := 0 }

/-- A provider account. -/
def userP : User := { id := "p1", email := "p@x.io", role := "provider", is_active := true, rating := 0 }

/-- A deactivated provider account. -/
def userQ : User := { id := "p2", email := "q@x.io", role := "provider", is_active := false, rating := 0 }

/-- An active service owned by userP. -/
def svc1 : Service := { id := "s1", provider_id := "p1", is_active := true }

/-- A pending request of userC on svc1. -/
def reqPending : ServiceRequest :=
  { id := "r1", service_id := "s1", customer_id := "c1", provider_id := "p1"
    status := .pending, message := none, requested_date := none, estimated_duration := none }

/-- A completed request of userC on svc1. -/
def reqCompleted : ServiceRequest :=
  { id := "r2", service_id := "s1", customer_id := "c1", provider_id := "p1"
    status := .completed, message := none, requested_date := none, estimated_duration := none }

/-- A cancelled request of userC on svc1. -/
def reqCancelled : ServiceRequest :=
  { id := "r3", service_id := "s1", customer_id := "c1", provider_id := "p1"
    status := .cancelled, message := none, requested_date := none, estimated_duration := none }

/-- A snapshot with a pending request (for the lifecycle theorems). -/
def dbPending : DB :=
  { users := [userC, userP], services := [svc1], requests := [reqPending], feedbacks := [] }

/-- A snapshot with a completed request and no feedback yet. -/
def dbCompleted : DB :=
  { users := [userC, userP], services := [svc1], requests := [reqCompleted], feedbacks := [] }

/-- A snapshot whose only request for (s1, c1) is cancelled. -/
def dbCancelled : DB :=
  { users := [userC, userP], services := [svc1], requests := [reqCancelled], feedbacks := [] }

/-- A snapshot containing a deactivated provider account. -/
def dbInactive : DB :=
  { users := [userC, userQ], services := [], requests := [], feedbacks := [] }

/-- Feedback already submitted for the completed request r2. -/
def fbR2 : Feedback :=
  { service_request_id := "r2", customer_id := "c1", provider_id := "p1"
    rating := 4, comment := none, is_public := true, created_at := 5 }

/-- A snapshot where feedback for r2 already exists. -/
def dbFb : DB := { dbCompleted with feedbacks := [fbR2] }

/-- An older public feedback row for provider p1. -/
def fbA : Feedback :=
  { service_request_id := "ra", customer_id := "c1", provider_id := "p1"
    rating := 4, comment := none, is_public := true, created_at := 1 }

/-- A newer public feedback row for provider p1. -/
def fbB : Feedback :=
  { service_request_id := "rb", customer_id := "c1", provider_id := "p1"
    rating := 5, comment := none, is_public := true, created_at := 5 }

/-- A non-public feedback row for provider p1. -/
def fbH : Feedback :=
  { service_request_id := "rh", customer_id := "c1", provider_id := "p1"
    rating := 1, comment := none, is_public := false, created_at := 3 }

/-- A snapshot with two public and one hidden feedback rows for p1. -/
def dbFb2 : DB :=
  { users := [userC, userP], services := [svc1], requests := [], feedbacks := [fbA, fbB, fbH] }

/-- The rational seven halves (3.5), written as an explicit reduced
fraction. -/
def sevenHalves : ℚ := ⟨7, 2, by decide, by decide⟩

/-! ## Theorems -/

/-- Claim C1: the spec asserts that access and refresh tokens verify to
identical claims but are always rejected by the other class's verifier
because the two classes use distinct secrets.  The code contradicts this:
lines 5 and 6 of utils/auth.ts both read process.env.JWT_SECRET_KEY, so
whenever that variable is set (here to s) the two secrets coincide and
verifyAccessToken accepts the refresh token (and verifyRefreshToken the
access token), returning the full claims instead of null. -/
theorem crossVerification_succeeds_when_JWT_SECRET_KEY_set :
    verifyAccessToken (some "s")
        (generateRefreshToken (some "s") { id := "u1", email := "u@x.io", role := "provider" } 0) 0 =
      some { userId := "u1", email := "u@x.io", role := "provider" } ∧
    verifyRefreshToken (some "s")
        (generateAccessToken (some "s") { id := "u1", email := "u@x.io", role := "provider" } 0) 0 =
      some { userId := "u1", email := "u@x.io", role := "provider" } ∧
    JWT_SECRET (some "s") = JWT_REFRESH_SECRET (some "s") := by
  refine ⟨?_, ?_, ?_⟩ <;> decide

/-- The canUpdate check of PATCH /requests/:id, characterised as a
proposition: the provider branch, the customer branch, and nothing else. -/
theorem canUpdateRequest_iff (userId userRole : String) (request : ServiceRequest)
    (status : RequestStatus) :
    canUpdateRequest userId userRole request status = true ↔
      ((userRole = "provider" ∧ request.provider_id = userId ∧
          (status = .accepted ∨ status = .declined ∨ status = .completed)) ∨
        (userRole = "customer" ∧ request.customer_id = userId ∧
          status = .cancelled ∧ request.status = .pending)) := by
  have hpc : ("provider" : String) ≠ "customer" := by decide
  unfold canUpdateRequest
  by_cases hpr : userRole = "provider" <;>
    by_cases hcu : userRole = "customer" <;>
    by_cases hpo : request.provider_id = userId <;>
    by_cases hco : request.customer_id = userId <;>
    cases status <;>
    cases hrs : request.status <;>
    simp_all

/-- Claim C2: on an existing request, PATCH /requests/:id applies the status
update exactly when the caller is the request's provider with role provider
and a target in the set containing accepted, declined and completed, or the
caller is the request's customer with role customer, the target is cancelled
and the current status is pending; every other combination answers 403 and
leaves the store unchanged. -/
theorem patchRequestStatus_matrix (db : DB) (userId userRole id : String)
    (status : RequestStatus) (request : ServiceRequest)
    (hfind : db.requests.find? (fun r => r.id == id) = some request) :
    (patchRequestStatus db userId userRole id status =
        (200, { db with requests := db.requests.map (fun r =>
          if r.id == id then { r with status := status } else r) }) ↔
      ((userRole = "provider" ∧ request.provider_id = userId ∧
          (status = .accepted ∨ status = .declined ∨ status = .completed)) ∨
        (userRole = "customer" ∧ request.customer_id = userId ∧
          status = .cancelled ∧ request.status = .pending))) ∧
    (¬ ((userRole = "provider" ∧ request.provider_id = userId ∧
          (status = .accepted ∨ status = .declined ∨ status = .completed)) ∨
        (userRole = "customer" ∧ request.customer_id = userId ∧
          status = .cancelled ∧ request.status = .pending)) →
      patchRequestStatus db userId userRole id status = (403, db)) := by
  have hstep : patchRequestStatus db userId userRole id status =
      if canUpdateRequest userId userRole request status = true then
        (200, { db with requests := db.requests.map (fun r =>
          if r.id == id then { r with status := status } else r) })
      else (403, db) := by
    simp only [patchRequestStatus, hfind]
  rw [hstep]
  by_cases hcan : canUpdateRequest userId userRole request status = true
  · have hcond := (canUpdateRequest_iff userId userRole request status).mp hcan
    rw [if_pos hcan]
    exact ⟨⟨fun _ => hcond, fun _ => rfl⟩, fun hn => absurd hcond hn⟩
  · have hcond : ¬ _ := fun hc =>
      hcan ((canUpdateRequest_iff userId userRole request status).mpr hc)
    rw [if_neg hcan]
    refine ⟨⟨fun habs => ?_, fun hc => absurd hc hcond⟩, fun _ => rfl⟩
    have h4 : (403 : Nat) = 200 := congrArg Prod.fst habs
    exact absurd h4 (by decide)

/-- Witness for C2: the provider of the pending request accepts it and the
stored status becomes accepted. -/
theorem patchRequestStatus_matrix_witness :
    patchRequestStatus dbPending "p1" "provider" "r1" .accepted =
      (200, { dbPending with requests := dbPending.requests.map (fun r =>
        if r.id == "r1" then { r with status := .accepted } else r) }) :=
  (patchRequestStatus_matrix dbPending "p1" "provider" "r1" .accepted reqPending
      (by decide)).1.mpr (Or.inl ⟨rfl, rfl, Or.inl rfl⟩)

/-- Claim C3: request creation by an authenticated customer answers 404 when
the referenced service is missing or inactive; otherwise 409 when a request
by the same customer for the same service is pending or accepted, creating
nothing; otherwise a new ServiceRequest in state pending whose provider_id
is the service owner is appended.  A prior cancelled request does not block
creation (it fails the pending-or-accepted test), which the witness below
exercises. -/
theorem createRequest_spec (db : DB) (customerId service_id : String)
    (message : Option String) (requested_date : Option String)
    (estimated_duration : Option ℚ) (newId : String)
    (hval : createRequestValid service_id estimated_duration = true) :
    ((∀ s ∈ db.services, ¬(s.id = service_id ∧ s.is_active = true)) →
      createRequest db customerId service_id message requested_date estimated_duration newId
        = (404, db)) ∧
    (∀ service, db.services.find? (fun s => s.id == service_id && s.is_active) = some service →
      ((∃ r ∈ db.requests, r.service_id = service_id ∧ r.customer_id = customerId ∧
          (r.status = .pending ∨ r.status = .accepted)) →
        createRequest db customerId service_id message requested_date estimated_duration newId
          = (409, db)) ∧
      ((∀ r ∈ db.requests, ¬(r.service_id = service_id ∧ r.customer_id = customerId ∧
          (r.status = .pending ∨ r.status = .accepted))) →
        createRequest db customerId service_id message requested_date estimated_duration newId
          = (201, { db with requests := db.requests ++
            [{ id := newId, service_id := service_id, customer_id := customerId
               provider_id := service.provider_id, status := .pending
               message := message, requested_date := requested_date
               estimated_duration := estimated_duration }] }))) := by
  have hv : (!createRequestValid service_id estimated_duration) = false := by
    rw [hval]; rfl
  refine ⟨?_, ?_⟩
  · intro hno
    have hnone : db.services.find? (fun s => s.id == service_id && s.is_active) = none := by
      rw [List.find?_eq_none]
      intro s hs
      have hn := hno s hs
      simp only [Bool.and_eq_true, beq_iff_eq]
      exact fun hc => hn ⟨hc.1, hc.2⟩
    simp only [createRequest, hv, Bool.false_eq_true, if_false, hnone]
  · intro service hsvc
    refine ⟨?_, ?_⟩
    · rintro ⟨r, hr, hm1, hm2, hm3⟩
      have hsome : (db.requests.find? (fun r =>
          r.service_id == service_id && r.customer_id == customerId &&
            (r.status == .pending || r.status == .accepted))).isSome := by
        rw [List.find?_isSome]
        refine ⟨r, hr, ?_⟩
        simp only [Bool.and_eq_true, Bool.or_eq_true, beq_iff_eq]
        exact ⟨⟨hm1, hm2⟩, hm3⟩
      obtain ⟨rr, hrr⟩ := Option.isSome_iff_exists.mp hsome
      simp only [createRequest, hv, Bool.false_eq_true, if_false, hsvc, hrr]
    · intro hnodup
      have hnone : db.requests.find? (fun r =>
          r.service_id == service_id && r.customer_id == customerId &&
            (r.status == .pending || r.status == .accepted)) = none := by
        rw [List.find?_eq_none]
        intro r hr
        have hn := hnodup r hr
        simp only [Bool.and_eq_true, Bool.or_eq_true, beq_iff_eq]
        exact fun hc => hn ⟨hc.1.1, hc.1.2, hc.2⟩
      simp only [createRequest, hv, Bool.false_eq_true, if_false, hsvc, hnone]

/-- Witness for C3: with the only request for (s1, c1) cancelled, a new
request is created in state pending with provider_id p1. -/
theorem createRequest_spec_witness :
    createRequest dbCancelled "c1" "s1" none none none "r9" =
      (201, { dbCancelled with requests := dbCancelled.requests ++
        [{ id := "r9", service_id := "s1", customer_id := "c1"
           provider_id := svc1.provider_id, status := .pending
           message := none, requested_date := none, estimated_duration := none }] }) :=
  ((createRequest_spec dbCancelled "c1" "s1" none none none "r9" (by decide)).2 svc1
      (by decide)).2 (by decide)

/-- Claim C4: a feedback submission answers one uniform 404 when no completed
request with the given id belongs to the caller (the missing, not-owned and
not-completed cases all take the same branch, so they are indistinguishable);
answers 409 when such a request exists but feedback for it already does; and
the at-most-one-feedback-per-request invariant is preserved by every
submission outcome. -/
theorem submitFeedback_spec (db : DB) (customerId service_request_id : String)
    (rating : ℚ) (comment : Option String) (now : Nat)
    (hval : submitFeedbackValid service_request_id rating = true) :
    ((∀ r ∈ db.requests, ¬(r.id = service_request_id ∧ r.customer_id = customerId ∧
        r.status = .completed)) →
      submitFeedback db customerId service_request_id rating comment now = (404, db)) ∧
    ((∃ r ∈ db.requests, r.id = service_request_id ∧ r.customer_id = customerId ∧
        r.status = .completed) →
      (∃ f ∈ db.feedbacks, f.service_request_id = service_request_id) →
      submitFeedback db customerId service_request_id rating comment now = (409, db)) ∧
    (FeedbackUnique db.feedbacks →
      FeedbackUnique (submitFeedback db customerId service_request_id rating comment now).2.feedbacks) := by
  have hv : (!submitFeedbackValid service_request_id rating) = false := by rw [hval]; rfl
  refine ⟨?_, ?_, ?_⟩
  · intro hno
    have hnone : db.requests.find? (fun r =>
        r.id == service_request_id && r.customer_id == customerId &&
          r.status == .completed) = none := by
      rw [List.find?_eq_none]
      intro r hr
      have hn := hno r hr
      simp only [Bool.and_eq_true, beq_iff_eq]
      exact fun hc => hn ⟨hc.1.1, hc.1.2, hc.2⟩
    simp only [submitFeedback, hv, Bool.false_eq_true, if_false, hnone]
  · rintro ⟨r, hr, hm1, hm2, hm3⟩ ⟨f, hf, hfm⟩
    have hsome : (db.requests.find? (fun r =>
        r.id == service_request_id && r.customer_id == customerId &&
          r.status == .completed)).isSome := by
      rw [List.find?_isSome]
      refine ⟨r, hr, ?_⟩
      simp only [Bool.and_eq_true, beq_iff_eq]
      exact ⟨⟨hm1, hm2⟩, hm3⟩
    obtain ⟨rr, hrr⟩ := Option.isSome_iff_exists.mp hsome
    have hfsome : (db.feedbacks.find? (fun f =>
        f.service_request_id == service_request_id)).isSome := by
      rw [List.find?_isSome]
      exact ⟨f, hf, by simp only [beq_iff_eq]; exact hfm⟩
    obtain ⟨ff, hff⟩ := Option.isSome_iff_exists.mp hfsome
    simp only [submitFeedback, hv, Bool.false_eq_true, if_false, hrr, hff]
  · intro huniq
    unfold submitFeedback
    rw [hv]
    simp only [Bool.false_eq_true, if_false]
    cases hrr : db.requests.find? (fun r =>
        r.id == service_request_id && r.customer_id == customerId &&
          r.status == .completed) with
    | none => exact huniq
    | some rr =>
      cases hff : db.feedbacks.find? (fun f =>
          f.service_request_id == service_request_id) with
      | some ff => exact huniq
      | none =>
        have hall : ∀ f ∈ db.feedbacks, f.service_request_id ≠ service_request_id := by
          intro f hf
          have := List.find?_eq_none.mp hff f hf
          simpa only [beq_iff_eq] using this
        unfold FeedbackUnique at huniq ⊢
        rw [List.pairwise_append]
        refine ⟨huniq, List.pairwise_singleton _ _, ?_⟩
        intro a ha b hb
        simp only [List.mem_singleton] at hb
        subst hb
        exact hall a ha

/-- Witness for C4: with feedback for r2 already present, a second
submission answers 409 and changes nothing. -/
theorem submitFeedback_spec_witness :
    submitFeedback dbFb "c1" "r2" 4 none 7 = (409, dbFb) :=
  (submitFeedback_spec dbFb "c1" "r2" 4 none 7 (by decide)).2.1
    ⟨reqCompleted, by decide, by decide, by decide, by decide⟩
    ⟨fbR2, by decide, by decide⟩

/-- Claim C5: after a successful feedback submission, every stored account
whose id is the provider of the request carries a rating equal to the
arithmetic mean of the ratings of all of that provider's feedback rows in
the resulting store (the newly created row included, with no visibility
filter), rounded to one decimal place. -/
theorem submitFeedback_rating_recompute (db : DB) (customerId service_request_id : String)
    (rating : ℚ) (comment : Option String) (now : Nat)
    (hval : submitFeedbackValid service_request_id rating = true)
    (request : ServiceRequest)
    (hreq : db.requests.find? (fun r => r.id == service_request_id &&
        r.customer_id == customerId && r.status == .completed) = some request)
    (hnofb : db.feedbacks.find? (fun f =>
        f.service_request_id == service_request_id) = none) :
    (submitFeedback db customerId service_request_id rating comment now).1 = 201 ∧
    ∀ u ∈ (submitFeedback db customerId service_request_id rating comment now).2.users,
      u.id = request.provider_id →
      u.rating = roundTo1
        ((((submitFeedback db customerId service_request_id rating comment now).2.feedbacks.filter
            (fun f => f.provider_id == request.provider_id)).map Feedback.rating).sum /
          ((((submitFeedback db customerId service_request_id rating comment now).2.feedbacks.filter
            (fun f => f.provider_id == request.provider_id)).length : ℚ))) := by
  have hv : (!submitFeedbackValid service_request_id rating) = false := by rw [hval]; rfl
  simp only [submitFeedback, hv, Bool.false_eq_true, if_false, hreq, hnofb]
  refine ⟨trivial, ?_⟩
  intro u hu hid
  simp only [List.mem_map] at hu
  obtain ⟨u₀, hu₀, rfl⟩ := hu
  by_cases h : (u₀.id == request.provider_id) = true
  · simp only [h, if_true]
  · rw [if_neg (by simp [h])] at hid ⊢
    exact absurd hid (by simpa using h)

/-- Witness for C5: submitting the first feedback (rating 4) for the
completed request r2 answers 201. -/
theorem submitFeedback_rating_recompute_witness :
    (submitFeedback dbCompleted "c1" "r2" 4 none 7).1 = 201 :=
  (submitFeedback_rating_recompute dbCompleted "c1" "r2" 4 none 7 (by decide) reqCompleted
      (by decide) (by decide)).1

/-- Claim C6: a protected call reaches its handler only with a token that
verifies against the access secret and names an existing account whose
active flag is set; in every other case — token missing, malformed, expired
or badly signed, account missing or deactivated — the middleware answers
401 and the handler is never invoked (the store is returned untouched). -/
theorem authenticateToken_gate (env : Option String) (db : DB) (tok : Option Token)
    (now : Nat) (handler : JWTPayload → Nat × DB) :
    (∀ p, authenticateToken env db tok now = some p →
      ∃ t u, tok = some t ∧ verifyAccessToken env t now = some p ∧
        db.users.find? (fun x => x.id == p.userId) = some u ∧ u.is_active = true) ∧
    (authenticateToken env db tok now = none →
      protectedRoute env db tok now handler = (401, db)) := by
  constructor
  · intro p hp
    cases tok with
    | none => exact absurd hp (by simp [authenticateToken])
    | some t =>
      simp only [authenticateToken] at hp
      split at hp
      · exact absurd hp (by simp)
      next q hver =>
        split at hp
        · exact absurd hp (by simp)
        next u hfind =>
          split at hp
          next hact =>
            obtain rfl : q = p := Option.some.inj hp
            exact ⟨t, u, rfl, hver, hfind, hact⟩
          next hact => exact absurd hp (by simp)
  · intro hnone
    unfold protectedRoute
    rw [hnone]

/-- Witness for C6: a freshly issued, unexpired access token for the
deactivated account p2 verifies fine, yet the gate answers 401. -/
theorem authenticateToken_gate_witness :
    verifyAccessToken (some "s")
        (generateAccessToken (some "s") { id := "p2", email := "q@x.io", role := "provider" } 0) 0 =
      some { userId := "p2", email := "q@x.io", role := "provider" } ∧
    protectedRoute (some "s") dbInactive
        (some (generateAccessToken (some "s")
          { id := "p2", email := "q@x.io", role := "provider" } 0)) 0
        (fun _ => (200, dbInactive)) = (401, dbInactive) :=
  ⟨by decide,
   (authenticateToken_gate (some "s") dbInactive
      (some (generateAccessToken (some "s")
        { id := "p2", email := "q@x.io", role := "provider" } 0)) 0
      (fun _ => (200, dbInactive))).2 (by decide)⟩

/-- Claim C7: reading an existing provider's feedback answers 200 with
exactly the publicly visible rows of that provider (as a multiset), sorted
newest first, a review count equal to the size of that visible set, and an
average computed as the rounded mean over that same visible set (0 when it
is empty) — independent of the cached User.rating. -/
theorem getProviderFeedback_read (db : DB) (id : String) (provider : User)
    (hfind : db.users.find? (fun u => u.id == id && u.role == "provider") = some provider) :
    ∃ body, getProviderFeedback db id = (200, some body) ∧
      body.feedback.Perm (db.feedbacks.filter (fun f => f.provider_id == id && f.is_public)) ∧
      body.feedback.Pairwise (fun a b => b.created_at ≤ a.created_at) ∧
      body.total_reviews =
        (db.feedbacks.filter (fun f => f.provider_id == id && f.is_public)).length ∧
      body.average_rating = roundTo1
        (if 0 < (db.feedbacks.filter (fun f => f.provider_id == id && f.is_public)).length then
          (((db.feedbacks.filter (fun f => f.provider_id == id && f.is_public)).map
              Feedback.rating).sum) /
            (((db.feedbacks.filter (fun f => f.provider_id == id && f.is_public)).length : ℚ))
        else 0) := by
  have hperm : (sortNewestFirst (db.feedbacks.filter
      (fun f => f.provider_id == id && f.is_public))).Perm
      (db.feedbacks.filter (fun f => f.provider_id == id && f.is_public)) :=
    List.perm_insertionSort _ _
  refine ⟨{ feedback := sortNewestFirst (db.feedbacks.filter
              (fun f => f.provider_id == id && f.is_public))
            average_rating := roundTo1
              (if 0 < (sortNewestFirst (db.feedbacks.filter
                  (fun f => f.provider_id == id && f.is_public))).length then
                (((sortNewestFirst (db.feedbacks.filter
                    (fun f => f.provider_id == id && f.is_public))).map
                  Feedback.rating).sum) /
                  (((sortNewestFirst (db.feedbacks.filter
                    (fun f => f.provider_id == id && f.is_public))).length : ℚ))
              else 0)
            total_reviews := (sortNewestFirst (db.feedbacks.filter
              (fun f => f.provider_id == id && f.is_public))).length },
          ?_, hperm, ?_, ?_, ?_⟩
  · simp only [getProviderFeedback, hfind]
  · haveI : IsTotal Feedback (fun a b => b.created_at ≤ a.created_at) :=
      ⟨fun a b => Nat.le_total b.created_at a.created_at⟩
    haveI : IsTrans Feedback (fun a b => b.created_at ≤ a.created_at) :=
      ⟨fun a b c h1 h2 => Nat.le_trans h2 h1⟩
    exact List.sorted_insertionSort _ _
  · exact hperm.length_eq
  · rw [show (sortNewestFirst (db.feedbacks.filter
        (fun f => f.provider_id == id && f.is_public))).length =
        (db.feedbacks.filter (fun f => f.provider_id == id && f.is_public)).length
      from hperm.length_eq,
      show ((sortNewestFirst (db.feedbacks.filter
        (fun f => f.provider_id == id && f.is_public))).map Feedback.rating).sum =
        ((db.feedbacks.filter (fun f => f.provider_id == id && f.is_public)).map
          Feedback.rating).sum
      from (hperm.map Feedback.rating).sum_eq]

/-- Witness for C7: reading p1 with two public and one hidden rows answers
200. -/
theorem getProviderFeedback_read_witness :
    (getProviderFeedback dbFb2 "p1").1 = 200 := by
  obtain ⟨body, h1, -, -, -, -⟩ := getProviderFeedback_read dbFb2 "p1" userP (by decide)
  rw [h1]

/-- Claim C8 is refuted: submitFeedbackSchema checks only min(1) and max(5)
on a number, not integrality, so the non-integer rating 7/2 passes
validation, the submission answers 201, and the stored row carries the
non-integer rating (denominator 2). -/
theorem submitFeedback_accepts_nonInteger_rating :
    (submitFeedback dbCompleted "c1" "r2" sevenHalves none 7).1 = 201 ∧
    ((submitFeedback dbCompleted "c1" "r2" sevenHalves none 7).2.feedbacks.map
      Feedback.rating) = [sevenHalves] ∧
    sevenHalves.den = 2 := by
  refine ⟨?_, ?_, ?_⟩ <;> decide

/-- Claim C8 (amended): every feedback submission whose rating lies outside
the closed interval from 1 to 5 is rejected with 400 before any write, and
the submission endpoint preserves the invariant that every stored Feedback
row carries a rating in that interval (integrality is not enforced). -/
theorem submitFeedback_rating_range (db : DB) (customerId service_request_id : String)
    (rating : ℚ) (comment : Option String) (now : Nat) :
    (¬(1 ≤ rating ∧ rating ≤ 5) →
      submitFeedback db customerId service_request_id rating comment now = (400, db)) ∧
    ((∀ f ∈ db.feedbacks, 1 ≤ f.rating ∧ f.rating ≤ 5) →
      ∀ f ∈ (submitFeedback db customerId service_request_id rating comment now).2.feedbacks,
        1 ≤ f.rating ∧ f.rating ≤ 5) := by
  constructor
  · intro h
    have hvf : submitFeedbackValid service_request_id rating = false := by
      unfold submitFeedbackValid
      rcases not_and_or.mp h with h1 | h2
      · rw [decide_eq_false h1]
        simp
      · rw [decide_eq_false h2]
        simp
    simp only [submitFeedback, hvf, Bool.not_false, if_true]
  · intro hall f hf
    cases hvb : submitFeedbackValid service_request_id rating with
    | false =>
      simp only [submitFeedback, hvb, Bool.not_false, if_true] at hf
      exact hall f hf
    | true =>
      have h15 : 1 ≤ rating ∧ rating ≤ 5 := by
        unfold submitFeedbackValid at hvb
        simp only [Bool.and_eq_true, decide_eq_true_eq] at hvb
        exact ⟨hvb.1.2, hvb.2⟩
      simp only [submitFeedback, hvb, Bool.not_true, Bool.false_eq_true, if_false] at hf
      cases hreq : db.requests.find? (fun r =>
          r.id == service_request_id && r.customer_id == customerId &&
            r.status == .completed) with
      | none =>
        simp only [hreq] at hf
        exact hall f hf
      | some rr =>
        simp only [hreq] at hf
        cases hfb : db.feedbacks.find? (fun f =>
            f.service_request_id == service_request_id) with
        | some ff =>
          simp only [hfb] at hf
          exact hall f hf
        | none =>
          simp only [hfb] at hf
          rcases List.mem_append.mp hf with hmem | hmem
          · exact hall f hmem
          · simp only [List.mem_singleton] at hmem
            subst hmem
            exact h15

/-- Witness for the amended C8: a rating of 6 is rejected with 400 and the
store is unchanged. -/
theorem submitFeedback_rating_range_witness :
    submitFeedback dbCompleted "c1" "r2" 6 none 7 = (400, dbCompleted) :=
  (submitFeedback_rating_range dbCompleted "c1" "r2" 6 none 7).1 (by norm_num)

/-- Claim C9: a PATCH /requests/:id call with target status pending is
denied with 403 for every caller on every existing request, so no request
ever returns to the pending state through this endpoint. -/
theorem patchRequestStatus_never_pending (db : DB) (userId userRole id : String)
    (request : ServiceRequest)
    (hfind : db.requests.find? (fun r => r.id == id) = some request) :
    patchRequestStatus db userId userRole id .pending = (403, db) := by
  have hfalse : canUpdateRequest userId userRole request .pending = false := by
    unfold canUpdateRequest
    split
    · rfl
    · split
      · rfl
      · rfl
  simp only [patchRequestStatus, hfind, hfalse, Bool.false_eq_true, if_false]

/-- Witness for C9: even the request's own provider cannot reset r1 to
pending. -/
theorem patchRequestStatus_never_pending_witness :
    patchRequestStatus dbPending "p1" "provider" "r1" .pending = (403, dbPending) :=
  patchRequestStatus_never_pending dbPending "p1" "provider" "r1" reqPending (by decide)

/-- Claim C10: reading an existing provider with no publicly visible
feedback answers 200 with an empty list, average_rating 0 and
total_reviews 0. -/
theorem getProviderFeedback_empty (db : DB) (id : String) (provider : User)
    (hfind : db.users.find? (fun u => u.id == id && u.role == "provider") = some provider)
    (hempty : db.feedbacks.filter (fun f => f.provider_id == id && f.is_public) = []) :
    getProviderFeedback db id =
      (200, some { feedback := [], average_rating := 0, total_reviews := 0 }) := by
  have h0 : roundTo1 0 = 0 := by
    unfold roundTo1 jsRound
    norm_num
  simp only [getProviderFeedback, hfind, hempty]
  simp [sortNewestFirst, h0]

/-- Witness for C10: provider p1 with an empty feedback table. -/
theorem getProviderFeedback_empty_witness :
    getProviderFeedback dbCompleted "p1" =
      (200, some { feedback := [], average_rating := 0, total_reviews := 0 }) :=
  getProviderFeedback_empty dbCompleted "p1" userP (by decide) (by decide)

end LinkLocal
